import Mathlib

/-!
Verification of `src/search_server_duckduck_go.py` (rate-limited DuckDuckGo
search client).  The Python source is shallowly embedded below: the
`RateLimiter` becomes an explicit state-passing function over integer
timestamps (seconds), the HTML scraping loop of `DuckDuckGoSearcher.search`
becomes a recursion over pre-extracted entry structures, and the formatting
helper becomes a pure string function.  An `Option` result models an
uncaught Python exception.
-/

/-! ## RateLimiter (lines 23–41) -/

/-- State of a `RateLimiter` instance: the configured ceiling
`requests_per_minute` (a Python `int`, so modelled as `Int`) and the list
`self.requests` of retained timestamps, in seconds (line 24–26). -/
structure RateLimiterState where
  requests_per_minute : Int
  requests : List Int
  deriving DecidableEq

/-- Embeds `RateLimiter.acquire` (lines 28–41) as a function of the instant
`now` at which the call enters.  It returns `none` when the Python code
raises (the `self.requests[0]` lookup on line 37 with an empty pruned list,
reachable only when `requests_per_minute ≤ 0`), and otherwise
`some (st, ret)` where `st` is the mutated state and `ret` the instant at
which `acquire` returns (`now + wait_time` after the `asyncio.sleep` on
line 39, `now` when no sleep happens).  Note that line 41 appends `now`,
the value captured on line 29 before any sleep. -/
def RateLimiter.acquire (self : RateLimiterState) (now : Int) :
    Option (RateLimiterState × Int) :=
  let pruned := self.requests.filter fun req => decide (now - req < 60)
  if (pruned.length : Int) ≥ self.requests_per_minute then
    match pruned with
    | [] => none
    | oldest :: _ =>
      let wait_time := 60 - (now - oldest)
      let ret := if wait_time > 0 then now + wait_time else now
      some (⟨self.requests_per_minute, pruned ++ [now]⟩, ret)
  else
    some (⟨self.requests_per_minute, pruned ++ [now]⟩, now)

/-- Runs a sequence of `acquire` calls, one per entry instant, threading the
limiter state; produces the list of return instants.  `none` when some call
raises. -/
def runAcquires : RateLimiterState → List Int → Option (RateLimiterState × List Int)
  | st, [] => some (st, [])
  | st, t :: ts =>
    match RateLimiter.acquire st t with
    | none => none
    | some (st', r) =>
      match runAcquires st' ts with
      | none => none
      | some (stf, rs) => some (stf, r :: rs)

/-- A schedule of entry instants is sequential when every call enters no
earlier than the previous call returned (single caller awaiting each
`acquire` in turn). -/
def sequentialEntries (entries rets : List Int) : Bool :=
  (entries.tail.zip rets).all fun p => decide (p.2 ≤ p.1)

/-- Number of authorized returns falling in the trailing window `(t−60, t]`. -/
def countWindow (t : Int) (rets : List Int) : Nat :=
  (rets.filter fun r => decide (t - 60 < r ∧ r ≤ t)).length

/-- **C1.**  The sliding-window bound fails on the code: with ceiling 1,
three sequential `acquire` calls entering at `t = 0, 0, 60` return at
`t = 0, 60, 60`, so the trailing 60-second window ending at `t = 60`
contains **2** authorized returns, exceeding the ceiling 1.  The root cause
is that line 41 appends the pre-wait `now` (here 0), which the next call
immediately prunes. -/
theorem rateLimiter_window_bound_violated :
    runAcquires ⟨1, []⟩ [0, 0, 60] = some (⟨1, [60]⟩, [0, 60, 60]) ∧
    sequentialEntries [0, 0, 60] [0, 60, 60] = true ∧
    countWindow 60 [0, 60, 60] = 2 ∧ 1 < countWindow 60 [0, 60, 60] := by
  refine ⟨by decide, by decide, by decide, by decide⟩

/-- **C2.**  The recorded timestamp is the pre-wait entry instant, not the
post-wait authorization instant: entering `acquire` at `t = 0` with ceiling
1 and one retained timestamp at 0, the call sleeps and returns at `t = 60`,
yet the entry appended to the sequence is `0 ≠ 60`. -/
theorem acquire_records_entry_time_bug :
    RateLimiter.acquire ⟨1, [0]⟩ 0 = some (⟨1, [0, 0]⟩, 60) ∧
    (⟨1, [0, 0]⟩ : RateLimiterState).requests.getLast? = some 0 ∧
    (0 : Int) ≠ 60 := by
  refine ⟨by decide, by decide, by decide⟩

/-- **C4, counterexample.**  With ceiling 0 and an empty timestamp
sequence, `acquire` raises `IndexError` (`self.requests[0]` on line 37)
instead of waiting: the claim that this configuration "waits rather than
raising, including the first call" is false. -/
theorem acquire_empty_zero_ceiling_raises :
    RateLimiter.acquire ⟨0, []⟩ 0 = none := by decide

/-- **C4, amended.**  `acquire` cannot fail whenever the ceiling is at
least 1; but with ceiling ≤ 0, any call made while the timestamp sequence
is empty — in particular the first call ever — raises `IndexError`
(modelled `none`) instead of waiting. -/
theorem acquire_total_iff_positive_ceiling :
    (∀ (st : RateLimiterState) (now : Int), 1 ≤ st.requests_per_minute →
      (RateLimiter.acquire st now).isSome = true) ∧
    (∀ (c : Int) (now : Int), c ≤ 0 →
      RateLimiter.acquire ⟨c, []⟩ now = none) := by
  constructor
  · intro st now h
    unfold RateLimiter.acquire
    by_cases hc :
        ((st.requests.filter fun req => decide (now - req < 60)).length : Int) ≥
          st.requests_per_minute
    · rw [if_pos hc]
      cases hp : st.requests.filter fun req => decide (now - req < 60) with
      | nil =>
        rw [hp] at hc
        simp at hc
        omega
      | cons oldest rest => simp
    · rw [if_neg hc]
      simp
  · intro c now h
    unfold RateLimiter.acquire
    simp only [List.filter_nil]
    rw [if_pos (by simpa using h)]

/-- Closed instance of `acquire_total_iff_positive_ceiling`: the default
configuration (ceiling 30) succeeds from a fresh state, and ceiling 0
raises. -/
theorem acquire_total_iff_positive_ceiling_w :
    (RateLimiter.acquire ⟨30, []⟩ 0).isSome = true ∧
    RateLimiter.acquire ⟨0, []⟩ 5 = none :=
  ⟨acquire_total_iff_positive_ceiling.1 ⟨30, []⟩ 0 (by decide),
   acquire_total_iff_positive_ceiling.2 0 5 (by decide)⟩

/-! ## String helpers modelling the Python primitives used on lines 104–116 -/

/-- Hexadecimal digit value, as recognised by `urllib.parse.unquote`. -/
def hexDigitVal (c : Char) : Option Nat :=
  if '0' ≤ c ∧ c ≤ '9' then some (c.toNat - '0'.toNat)
  else if 'a' ≤ c ∧ c ≤ 'f' then some (c.toNat - 'a'.toNat + 10)
  else if 'A' ≤ c ∧ c ≤ 'F' then some (c.toNat - 'A'.toNat + 10)
  else none

/-- Character-level percent decoding: each valid `%XX` escape becomes the
character with code `XX`; a `%` not followed by two hex digits is kept
verbatim.  This models `urllib.parse.unquote` faithfully on inputs whose
escapes denote single-byte (ASCII) characters, which covers every URL the
claims mention; multi-byte UTF-8 escape sequences are out of scope. -/
def unquoteChars : List Char → List Char
  | [] => []
  | '%' :: a :: b :: rest =>
    match hexDigitVal a, hexDigitVal b with
    | some hi, some lo => Char.ofNat (16 * hi + lo) :: unquoteChars rest
    | _, _ => '%' :: unquoteChars (a :: b :: rest)
  | '%' :: rest => '%' :: unquoteChars rest
  | c :: rest => c :: unquoteChars rest

/-- `urllib.parse.unquote` on strings (see `unquoteChars`). -/
def pyUnquote (s : String) : String := ⟨unquoteChars s.data⟩

/-- Python `str.startswith`. -/
def pyStartsWith (s pat : String) : Bool := pat.data.isPrefixOf s.data

/-- Scan for an occurrence of `pat` at any position of the list. -/
def containsAux (pat : List Char) : List Char → Bool
  | [] => pat.isPrefixOf ([] : List Char)
  | c :: rest => pat.isPrefixOf (c :: rest) || containsAux pat rest

/-- Python substring membership, `pat in s`. -/
def pyContains (s pat : String) : Bool := containsAux pat.data s.data

/-- Fuel-driven scanner behind `pySplit`; `fuel` bounds the number of steps
and is instantiated with the length of the scanned list, which suffices for
any non-empty separator. -/
def splitAux (sep : List Char) : Nat → List Char → List (List Char)
  | 0, l => [l]
  | _ + 1, [] => [[]]
  | fuel + 1, c :: rest =>
    if sep.isPrefixOf (c :: rest) then
      [] :: splitAux sep fuel ((c :: rest).drop sep.length)
    else
      match splitAux sep fuel rest with
      | [] => [[c]]
      | p :: ps => (c :: p) :: ps

/-- Python `str.split(sep)` for a non-empty separator `sep`: the pieces
between non-overlapping occurrences of `sep`, scanned left to right. -/
def pySplit (s sep : String) : List String :=
  (splitAux sep.data s.data.length s.data).map fun l => ⟨l⟩

/-! ## SearchResult and the parsed-markup model (lines 15–20, 94–131) -/

/-- Line 15–20: one parsed hit. -/
structure SearchResult where
  title : String
  link : String
  snippet : String
  position : Nat
  deriving DecidableEq

/-- The `<a>` element found inside a result title (line 100):
`text` models `link_elem.get_text(strip=True)` (line 104) and `href` the
`href` attribute, absent when the anchor carries none (line 105). -/
structure AnchorElem where
  text : String
  href : Option String
  deriving DecidableEq

/-- The `.result__title` element (line 96); `anchor` models
`title_elem.find("a")` (line 100). -/
structure TitleElem where
  anchor : Option AnchorElem
  deriving DecidableEq

/-- One `.result` element of the parsed markup (line 95): `titleElem`
models `result.select_one(".result__title")` (line 96) and `snippetText`
the stripped text of `result.select_one(".result__snippet")` when that
element exists (lines 115–116). -/
structure RawEntry where
  titleElem : Option TitleElem
  snippetText : Option String
  deriving DecidableEq

/-- The per-entry extraction of the loop body, lines 96–116: `none` models
the `continue` paths (missing title element, missing anchor, ad-marked
link); otherwise `some (title, link, snippet)` with the link unwrapped when
it starts with the DuckDuckGo redirect pattern (lines 111–113; the
`split("uddg=")[1]` index cannot raise there because the matched pattern
contains `uddg=`, hence the `getD`). -/
def entryResult (result : RawEntry) : Option (String × String × String) :=
  match result.titleElem with
  | none => none
  | some title_elem =>
    match title_elem.anchor with
    | none => none
    | some link_elem =>
      let title := link_elem.text
      let link := link_elem.href.getD ""
      if pyContains link "y.js" then none
      else
        let link :=
          if pyStartsWith link "//duckduckgo.com/l/?uddg=" then
            pyUnquote ((pySplit ((pySplit link "uddg=").getD 1 "") "&").headD "")
          else link
        let snippet := result.snippetText.getD ""
        some (title, link, snippet)

/-- The accumulation loop of lines 94–128: each accepted entry is appended
with `position = len(results) + 1` (line 123), and scanning stops as soon
as `len(results) >= max_results` (lines 127–128). -/
def searchLoop (max_results : Int) :
    List SearchResult → List RawEntry → List SearchResult
  | results, [] => results
  | results, e :: rest =>
    match entryResult e with
    | none => searchLoop max_results results rest
    | some (title, link, snippet) =>
      let results' := results ++ [⟨title, link, snippet, results.length + 1⟩]
      if (results'.length : Int) ≥ max_results then results'
      else searchLoop max_results results' rest

/-- Outcome of the rate-limited HTTP fetch plus parse (lines 73–92): the
three `except` arms of lines 133–142 and the unparsable-markup arm of
lines 90–92 are each a constructor, and a successful parse carries the
entries selected by `soup.select(".result")`. -/
inductive FetchOutcome where
  | timeout
  | httpError
  | parseFailure
  | unexpectedError
  | ok (entries : List RawEntry)
  deriving DecidableEq

/-- `DuckDuckGoSearcher.search` (lines 69–142) as a function of the fetch
outcome: every failure arm returns the empty list (lines 92, 135, 138,
142), and a successful fetch runs the extraction loop. -/
def DuckDuckGoSearcher.search (outcome : FetchOutcome) (max_results : Int) :
    List SearchResult :=
  match outcome with
  | .timeout => []
  | .httpError => []
  | .parseFailure => []
  | .unexpectedError => []
  | .ok entries => searchLoop max_results [] entries

/-! ## Result formatting (lines 53–67) -/

/-- Python `sep.join(pieces)` (line 67). -/
def pyJoin (sep : String) : List String → String
  | [] => ""
  | [s] => s
  | s :: rest => s ++ sep ++ pyJoin sep rest

/-- The `output.append` loop of lines 61–65: four lines per result. -/
def formatLoop : List SearchResult → List String
  | [] => []
  | r :: rest =>
    (toString r.position ++ ". " ++ r.title) ::
    ("   URL: " ++ r.link) ::
    ("   Summary: " ++ r.snippet) ::
    "" :: formatLoop rest

/-- `DuckDuckGoSearcher.format_results_for_llm` (lines 53–67). -/
def format_results_for_llm (results : List SearchResult) : String :=
  if results.isEmpty then
    "No results were found for your search query. This could be due to DuckDuckGo's bot detection or the query returned no matches. Please try rephrasing your search or try again in a few minutes."
  else
    pyJoin "\n"
      (("Found " ++ toString results.length ++ " search results:\n") ::
        formatLoop results)

/-! ## Claims about `DuckDuckGoSearcher.search` -/

/-- **C3.**  Every failure class of the pipeline — timeout (line 133),
transport/HTTP error (line 136), unparsable markup (line 90) and any
unexpected error (line 139) — is caught inside `search` and mapped to the
empty result list; `search` itself is a total function on every outcome
and never propagates an error. -/
theorem search_failures_empty :
    ∀ max_results : Int,
      DuckDuckGoSearcher.search .timeout max_results = [] ∧
      DuckDuckGoSearcher.search .httpError max_results = [] ∧
      DuckDuckGoSearcher.search .parseFailure max_results = [] ∧
      DuckDuckGoSearcher.search .unexpectedError max_results = [] :=
  fun _ => ⟨rfl, rfl, rfl, rfl⟩

/-- Annotates a list of extracted `(title, link, snippet)` triples with
consecutive positions starting at `n`. -/
def assignPos : Nat → List (String × String × String) → List SearchResult
  | _, [] => []
  | n, (t, l, s) :: rest => ⟨t, l, s, n⟩ :: assignPos (n + 1) rest

theorem assignPos_length (l : List (String × String × String)) :
    ∀ n, (assignPos n l).length = l.length := by
  induction l with
  | nil => intro n; rfl
  | cons x rest ih =>
    intro n
    obtain ⟨t, li, s⟩ := x
    simp [assignPos, ih]

theorem assignPos_map_position (l : List (String × String × String)) :
    ∀ n, (assignPos n l).map SearchResult.position = List.range' n l.length := by
  induction l with
  | nil => intro n; rfl
  | cons x rest ih =>
    intro n
    obtain ⟨t, li, s⟩ := x
    simp [assignPos, ih, List.range'_succ]

theorem assignPos_map_fields (l : List (String × String × String)) :
    ∀ n, (assignPos n l).map (fun r => (r.title, r.link, r.snippet)) = l := by
  induction l with
  | nil => intro n; rfl
  | cons x rest ih =>
    intro n
    obtain ⟨t, li, s⟩ := x
    simp [assignPos, ih]

/-- As long as fewer than `max_results` results are accumulated, the loop
of lines 94–128 produces exactly the accepted entries in document order
(`List.filterMap entryResult`), truncated to the remaining quota, with
consecutive positions continuing from the accumulator. -/
theorem searchLoop_characterization (max_results : Int) :
    ∀ (entries : List RawEntry) (acc : List SearchResult),
      (acc.length : Int) < max_results →
      searchLoop max_results acc entries =
        acc ++ assignPos (acc.length + 1)
          ((entries.filterMap entryResult).take (max_results - acc.length).toNat) := by
  intro entries
  induction entries with
  | nil => intro acc h; simp [searchLoop, assignPos]
  | cons e rest ih =>
    intro acc h
    cases he : entryResult e with
    | none =>
      rw [show searchLoop max_results acc (e :: rest) =
            searchLoop max_results acc rest by simp [searchLoop, he]]
      rw [ih acc h]
      simp [List.filterMap_cons, he]
    | some v =>
      obtain ⟨t, li, s⟩ := v
      have hstep : searchLoop max_results acc (e :: rest) =
          if (((acc ++ [SearchResult.mk t li s (acc.length + 1)]).length : Nat) : Int)
              ≥ max_results
          then acc ++ [SearchResult.mk t li s (acc.length + 1)]
          else searchLoop max_results (acc ++ [SearchResult.mk t li s (acc.length + 1)]) rest := by
        simp [searchLoop, he]
      rw [hstep]
      rw [show List.filterMap entryResult (e :: rest)
            = (t, li, s) :: List.filterMap entryResult rest by
          simp [List.filterMap_cons, he]]
      by_cases hge : ((acc.length : Int) + 1 ≥ max_results)
      · rw [if_pos (by simpa using hge)]
        have h1 : (max_results - (acc.length : Int)).toNat = 1 := by omega
        rw [h1]
        simp [assignPos]
      · rw [if_neg (by simpa using hge)]
        push_neg at hge
        have h' : (((acc ++ [(⟨t, li, s, acc.length + 1⟩ : SearchResult)]).length : Nat) : Int)
            < max_results := by
          simpa using hge
        rw [ih _ h']
        have h2 : (max_results - (acc.length : Int)).toNat
            = (max_results - ((acc.length : Int) + 1)).toNat + 1 := by omega
        rw [h2, List.take_succ_cons]
        have hlen : (acc ++ [SearchResult.mk t li s (acc.length + 1)]).length
            = acc.length + 1 := by simp
        rw [hlen]
        have hcast : (((acc.length + 1 : Nat)) : Int) = (acc.length : Int) + 1 := by
          push_cast
          ring
        rw [hcast]
        rw [List.append_assoc]
        rfl

/-- **C5.**  For positive `maxResults`: `search` returns at most
`maxResults` results; their positions are exactly `1, 2, …, len` with no
gaps; and stripping positions, the results are exactly the accepted
entries of the markup in document order (skipped entries ignored),
truncated to `maxResults`. -/
theorem search_bounded_ordered (max_results : Int) (entries : List RawEntry)
    (h : 0 < max_results) :
    (DuckDuckGoSearcher.search (.ok entries) max_results).length ≤ max_results.toNat ∧
    (DuckDuckGoSearcher.search (.ok entries) max_results).map SearchResult.position =
      List.range' 1 (DuckDuckGoSearcher.search (.ok entries) max_results).length ∧
    (DuckDuckGoSearcher.search (.ok entries) max_results).map
        (fun r => (r.title, r.link, r.snippet)) =
      (entries.filterMap entryResult).take max_results.toNat := by
  have hchar := searchLoop_characterization max_results entries [] (by simpa using h)
  have hsearch : DuckDuckGoSearcher.search (.ok entries) max_results =
      assignPos 1 ((entries.filterMap entryResult).take max_results.toNat) := by
    show searchLoop max_results [] entries = _
    rw [hchar]
    simp
  rw [hsearch]
  refine ⟨?_, ?_, ?_⟩
  · rw [assignPos_length]
    exact List.length_take_le _ _
  · rw [assignPos_map_position, assignPos_length]
  · rw [assignPos_map_fields]

/-- Closed instance of `search_bounded_ordered`: a markup with one entry
lacking a title element, one ad entry and three good entries, scanned with
`maxResults = 2`. -/
theorem search_bounded_ordered_w :
    (0 : Int) < 2 ∧
    (DuckDuckGoSearcher.search
        (.ok [⟨none, some "no title"⟩,
              ⟨some ⟨some ⟨"Ad", some "https://x/y.js?q=1"⟩⟩, some "ad"⟩,
              ⟨some ⟨some ⟨"A", some "https://a"⟩⟩, some "sa"⟩,
              ⟨some ⟨some ⟨"B", some "https://b"⟩⟩, none⟩,
              ⟨some ⟨some ⟨"C", some "https://c"⟩⟩, some "sc"⟩]) 2).map
        (fun r => (r.title, r.link, r.snippet)) =
      (([⟨none, some "no title"⟩,
         ⟨some ⟨some ⟨"Ad", some "https://x/y.js?q=1"⟩⟩, some "ad"⟩,
         ⟨some ⟨some ⟨"A", some "https://a"⟩⟩, some "sa"⟩,
         ⟨some ⟨some ⟨"B", some "https://b"⟩⟩, none⟩,
         ⟨some ⟨some ⟨"C", some "https://c"⟩⟩, some "sc"⟩] :
          List RawEntry).filterMap entryResult).take (2 : Int).toNat :=
  ⟨by decide,
   (search_bounded_ordered 2
      [⟨none, some "no title"⟩,
       ⟨some ⟨some ⟨"Ad", some "https://x/y.js?q=1"⟩⟩, some "ad"⟩,
       ⟨some ⟨some ⟨"A", some "https://a"⟩⟩, some "sa"⟩,
       ⟨some ⟨some ⟨"B", some "https://b"⟩⟩, none⟩,
       ⟨some ⟨some ⟨"C", some "https://c"⟩⟩, some "sc"⟩] (by decide)).2.2⟩

/-- With a non-positive `max_results`, the stop check of line 127 fires
right after the first accepted entry is appended: the loop returns the
accumulator extended by exactly the first accepted entry, if any. -/
theorem searchLoop_nonpos (max_results : Int) (hmr : max_results ≤ 0) :
    ∀ (entries : List RawEntry) (acc : List SearchResult),
      searchLoop max_results acc entries =
        match entries.filterMap entryResult with
        | [] => acc
        | (t, l, s) :: _ => acc ++ [⟨t, l, s, acc.length + 1⟩] := by
  intro entries
  induction entries with
  | nil => intro acc; rfl
  | cons e rest ih =>
    intro acc
    cases he : entryResult e with
    | none =>
      rw [show searchLoop max_results acc (e :: rest) =
            searchLoop max_results acc rest by simp [searchLoop, he]]
      rw [ih acc]
      rw [show List.filterMap entryResult (e :: rest)
            = List.filterMap entryResult rest by simp [List.filterMap_cons, he]]
    | some v =>
      obtain ⟨t, li, s⟩ := v
      rw [show List.filterMap entryResult (e :: rest)
            = (t, li, s) :: List.filterMap entryResult rest by
          simp [List.filterMap_cons, he]]
      have hcond : (((acc ++ [SearchResult.mk t li s (acc.length + 1)]).length : Nat) : Int)
          ≥ max_results := by
        simp
        omega
      simp [searchLoop, he, hcond]
      intro hlt
      exfalso
      simp at hcond
      omega

/-- **C9.**  When `max_results ≤ 0` (violating the documented positive
precondition) and the markup contains at least one accepted entry,
`search` still returns exactly one result, because the check
`len(results) >= max_results` (line 127) runs only after an append. -/
theorem search_nonpositive_max_returns_one (max_results : Int)
    (entries : List RawEntry) (h1 : max_results ≤ 0)
    (h2 : ∃ e ∈ entries, (entryResult e).isSome = true) :
    (DuckDuckGoSearcher.search (.ok entries) max_results).length = 1 := by
  have hrun := searchLoop_nonpos max_results h1 entries []
  show (searchLoop max_results [] entries).length = 1
  rw [hrun]
  cases hf : entries.filterMap entryResult with
  | nil =>
    exfalso
    obtain ⟨e, hmem, hsome⟩ := h2
    rw [List.filterMap_eq_nil_iff] at hf
    rw [hf e hmem] at hsome
    simp at hsome
  | cons v rest =>
    obtain ⟨t, li, s⟩ := v
    rfl

/-- Closed instance of `search_nonpositive_max_returns_one`:
`max_results = 0` on a markup with one valid entry still yields one
result. -/
theorem search_nonpositive_max_returns_one_w :
    (DuckDuckGoSearcher.search
        (.ok [⟨some ⟨some ⟨"A", some "https://a"⟩⟩, none⟩]) 0).length = 1 :=
  search_nonpositive_max_returns_one 0
    [⟨some ⟨some ⟨"A", some "https://a"⟩⟩, none⟩] (by decide) (by decide)

/-- The ad check of lines 107–109, applied (as the code does) to the raw
extracted `href`, before any redirect unwrapping. -/
def isAdEntry (e : RawEntry) : Bool :=
  match e.titleElem with
  | none => false
  | some te =>
    match te.anchor with
    | none => false
    | some a => pyContains (a.href.getD "") "y.js"

theorem entryResult_of_ad (e : RawEntry) (h : isAdEntry e = true) :
    entryResult e = none := by
  obtain ⟨te, sn⟩ := e
  cases te with
  | none => rfl
  | some t =>
    obtain ⟨anc⟩ := t
    cases anc with
    | none => rfl
    | some a =>
      simp only [isAdEntry] at h
      simp [entryResult, h]

theorem searchLoop_filter_ads (max_results : Int) :
    ∀ (entries : List RawEntry) (acc : List SearchResult),
      searchLoop max_results acc (entries.filter fun e => ! isAdEntry e) =
        searchLoop max_results acc entries := by
  intro entries
  induction entries with
  | nil => intro acc; rfl
  | cons e rest ih =>
    intro acc
    by_cases had : isAdEntry e = true
    · rw [List.filter_cons_of_neg (by simp [had])]
      rw [ih acc]
      rw [show searchLoop max_results acc (e :: rest) =
            searchLoop max_results acc rest by
          simp [searchLoop, entryResult_of_ad e had]]
    · rw [List.filter_cons_of_pos (by simp [had])]
      cases he : entryResult e with
      | none => simp [searchLoop, he, ih]
      | some v =>
        obtain ⟨t, li, s⟩ := v
        simp only [searchLoop, he]
        split
        · rfl
        · exact ih _

/-- **C6, amended.**  The ad filter acts on the raw href: any entry whose
extracted link contains `y.js` yields no result (first conjunct), and
removing all such entries from the markup leaves the output of `search`
unchanged — skipped ad entries count neither toward `maxResults` nor
toward positions (second conjunct).  (After redirect unwrapping, a
*returned* link may still contain `y.js`; see the counterexample.) -/
theorem search_skips_ad_entries :
    (∀ e : RawEntry, isAdEntry e = true → entryResult e = none) ∧
    ∀ (max_results : Int) (entries : List RawEntry),
      DuckDuckGoSearcher.search (.ok (entries.filter fun e => ! isAdEntry e))
          max_results =
        DuckDuckGoSearcher.search (.ok entries) max_results :=
  ⟨entryResult_of_ad, fun mr entries => searchLoop_filter_ads mr entries []⟩

/-- Closed instance of `search_skips_ad_entries`: one ad entry followed by
one good entry. -/
theorem search_skips_ad_entries_w :
    entryResult ⟨some ⟨some ⟨"Ad", some "https://x/y.js?q=1"⟩⟩, some "s"⟩ = none ∧
    DuckDuckGoSearcher.search
        (.ok ([⟨some ⟨some ⟨"Ad", some "https://x/y.js?q=1"⟩⟩, some "s"⟩,
               ⟨some ⟨some ⟨"A", some "https://a"⟩⟩, some "sa"⟩].filter
            fun e => ! isAdEntry e)) 10 =
      DuckDuckGoSearcher.search
        (.ok [⟨some ⟨some ⟨"Ad", some "https://x/y.js?q=1"⟩⟩, some "s"⟩,
              ⟨some ⟨some ⟨"A", some "https://a"⟩⟩, some "sa"⟩]) 10 :=
  ⟨search_skips_ad_entries.1 _ (by decide), search_skips_ad_entries.2 10 _⟩

/-- **C6, counterexample.**  The ad check runs before unwrapping, so a
redirect-wrapped link whose *decoded* destination contains `y.js`
(here the dot is escaped as `%2E` in the raw href) is returned, and the
returned result's link does contain the ad-marker token: the claim that no
returned result's link contains `y.js` is false. -/
theorem ad_marker_reappears_after_unwrap :
    DuckDuckGoSearcher.search
        (.ok [⟨some ⟨some ⟨"Ad",
          some "//duckduckgo.com/l/?uddg=https%3A%2F%2Fads.example%2Fy%2Ejs"⟩⟩,
          some "s"⟩]) 10 =
      [⟨"Ad", "https://ads.example/y.js", "s", 1⟩] ∧
    pyContains "https://ads.example/y.js" "y.js" = true := by
  exact ⟨by decide, by decide⟩

/-- **C7, amended.**  A link that starts with the exact redirect pattern
`//duckduckgo.com/l/?uddg=` (line 112) and is not ad-marked is returned
unwrapped: the portion after `uddg=`, truncated at the first `&` and then
percent-decoded (line 113). -/
theorem search_unwraps_ddg_redirect (title href snip : String) (max_results : Int)
    (h1 : 0 < max_results)
    (h2 : pyContains href "y.js" = false)
    (h3 : pyStartsWith href "//duckduckgo.com/l/?uddg=" = true) :
    DuckDuckGoSearcher.search
        (.ok [⟨some ⟨some ⟨title, some href⟩⟩, some snip⟩]) max_results =
      [⟨title,
        pyUnquote ((pySplit ((pySplit href "uddg=").getD 1 "") "&").headD ""),
        snip, 1⟩] := by
  have he : entryResult ⟨some ⟨some ⟨title, some href⟩⟩, some snip⟩ =
      some (title,
        pyUnquote ((pySplit ((pySplit href "uddg=").getD 1 "") "&").headD ""),
        snip) := by
    simp [entryResult, h2, h3]
  show searchLoop max_results []
      [⟨some ⟨some ⟨title, some href⟩⟩, some snip⟩] = _
  simp only [searchLoop, he]
  split
  · rfl
  · rfl

/-- Closed instance of `search_unwraps_ddg_redirect`, realising the spec's
scenario under the host the code actually recognises: the `uddg` value
`https%3A%2F%2Freal.example%2Fpage`, truncated at `&extra=1`, decodes to
`https://real.example/page`. -/
theorem search_unwraps_ddg_redirect_w :
    DuckDuckGoSearcher.search
        (.ok [⟨some ⟨some ⟨"Example",
          some "//duckduckgo.com/l/?uddg=https%3A%2F%2Freal.example%2Fpage&extra=1"⟩⟩,
          some "snip"⟩]) 10 =
      [⟨"Example", "https://real.example/page", "snip", 1⟩] :=
  (search_unwraps_ddg_redirect "Example"
      "//duckduckgo.com/l/?uddg=https%3A%2F%2Freal.example%2Fpage&extra=1" "snip" 10
      (by decide) (by decide) (by decide)).trans (by decide)

/-- **C7, counterexample.**  The spec's scenario link
`//provider.example/l/?uddg=…` does **not** start with the exact pattern
`//duckduckgo.com/l/?uddg=` checked on line 112, so `search` returns it
verbatim, still wrapped — not the decoded `https://real.example/page` the
claim requires. -/
theorem provider_redirect_not_unwrapped :
    DuckDuckGoSearcher.search
        (.ok [⟨some ⟨some ⟨"T",
          some "//provider.example/l/?uddg=https%3A%2F%2Freal.example%2Fpage&extra=1"⟩⟩,
          some "S"⟩]) 10 =
      [⟨"T", "//provider.example/l/?uddg=https%3A%2F%2Freal.example%2Fpage&extra=1",
        "S", 1⟩] ∧
    ("//provider.example/l/?uddg=https%3A%2F%2Freal.example%2Fpage&extra=1" : String)
      ≠ "https://real.example/page" := by
  exact ⟨by decide, by decide⟩

/-- **C10.**  Redirect unwrapping applies only to links starting with the
exact text `//duckduckgo.com/l/?uddg=`: any non-ad link under a different
scheme, host or path (e.g. `https://duckduckgo.com/…` or
`//provider.example/…`) is returned verbatim, still wrapped. -/
theorem search_foreign_wrapper_verbatim (title href snip : String) (max_results : Int)
    (h1 : 0 < max_results)
    (h2 : pyContains href "y.js" = false)
    (h3 : pyStartsWith href "//duckduckgo.com/l/?uddg=" = false) :
    DuckDuckGoSearcher.search
        (.ok [⟨some ⟨some ⟨title, some href⟩⟩, some snip⟩]) max_results =
      [⟨title, href, snip, 1⟩] := by
  have he : entryResult ⟨some ⟨some ⟨title, some href⟩⟩, some snip⟩ =
      some (title, href, snip) := by
    simp [entryResult, h2, h3]
  show searchLoop max_results []
      [⟨some ⟨some ⟨title, some href⟩⟩, some snip⟩] = _
  simp only [searchLoop, he]
  split
  · rfl
  · rfl

/-- Closed instance of `search_foreign_wrapper_verbatim`: an
`https://duckduckgo.com/l/?uddg=…` link (wrong scheme for the pattern) is
returned wrapped. -/
theorem search_foreign_wrapper_verbatim_w :
    DuckDuckGoSearcher.search
        (.ok [⟨some ⟨some ⟨"T",
          some "https://duckduckgo.com/l/?uddg=https%3A%2F%2Freal.example%2Fpage"⟩⟩,
          some "S"⟩]) 10 =
      [⟨"T", "https://duckduckgo.com/l/?uddg=https%3A%2F%2Freal.example%2Fpage",
        "S", 1⟩] :=
  search_foreign_wrapper_verbatim "T"
    "https://duckduckgo.com/l/?uddg=https%3A%2F%2Freal.example%2Fpage" "S" 10
    (by decide) (by decide) (by decide)

/-! ## Claims about `format_results_for_llm` -/

theorem pyJoin_cons (sep a : String) (l : List String) (h : l ≠ []) :
    pyJoin sep (a :: l) = a ++ sep ++ pyJoin sep l := by
  cases l with
  | nil => exact absurd rfl h
  | cons x xs => rfl

theorem formatLoop_eq_flatMap (rs : List SearchResult) :
    formatLoop rs = rs.flatMap fun r =>
      [toString r.position ++ ". " ++ r.title, "   URL: " ++ r.link,
       "   Summary: " ++ r.snippet, ""] := by
  induction rs with
  | nil => rfl
  | cons r rest ih => simp [formatLoop, ih]

/-- **C8.**  `format_results_for_llm` is total by construction; it maps
the empty list to the fixed no-results advisory (line 56) and a non-empty
list to the count header followed, for each result in input order, by a
block carrying its position, title, link and snippet — an empty snippet
producing an empty (not missing) `Summary` line. -/
theorem format_results_spec :
    format_results_for_llm [] =
      "No results were found for your search query. This could be due to DuckDuckGo's bot detection or the query returned no matches. Please try rephrasing your search or try again in a few minutes." ∧
    ∀ results : List SearchResult, results ≠ [] →
      format_results_for_llm results =
        "Found " ++ toString results.length ++ " search results:\n" ++ "\n" ++
        pyJoin "\n" (results.flatMap fun r =>
          [toString r.position ++ ". " ++ r.title, "   URL: " ++ r.link,
           "   Summary: " ++ r.snippet, ""]) := by
  refine ⟨rfl, ?_⟩
  intro results h
  obtain ⟨r, rest, rfl⟩ := List.exists_cons_of_ne_nil h
  rw [show format_results_for_llm (r :: rest) =
        pyJoin "\n" (("Found " ++ toString (r :: rest).length ++ " search results:\n")
          :: formatLoop (r :: rest)) from by simp [format_results_for_llm]]
  rw [pyJoin_cons _ _ _ (by simp [formatLoop])]
  rw [formatLoop_eq_flatMap]

/-- Closed instance of `format_results_spec`: one result with an empty
snippet renders with an empty `Summary` line. -/
theorem format_results_spec_w :
    format_results_for_llm [⟨"T", "http://e", "", 1⟩] =
      "Found 1 search results:\n\n1. T\n   URL: http://e\n   Summary: \n" :=
  (format_results_spec.2 [⟨"T", "http://e", "", 1⟩] (by decide)).trans (by decide)
